import Mathlib

/-!
Verification of `bevy_command_non_send` (src/lib.rs).

The library builds deferred operations (closures over `&mut World`) that
call three host-engine mutators for non-`Send` resources, and a trait
`CommandsExt` that forwards them through `Commands::add`.

Embedding choices:
* Resource types are identified by a `TypeId : Nat`; resource values are
  `Val : Nat`.  The authoritative `World` keeps its non-`Send` resource
  table as a partial map `TypeId → Option Val`, together with the rest of
  the state (ordinary resources and entities) so that frame conditions can
  be stated.
* A factory closure (Rust `FnOnce() -> R + Send`) may mutate its captured
  environment, so it is embedded as a state-passing function
  `σ → Val × σ` over an arbitrary environment type `σ`.  A deferred
  operation (`impl Command`) thus acts on `World × σ`.
* The host-engine mutators (`World::init_non_send_resource`,
  `World::insert_non_send_resource`, `World::remove_non_send_resource`)
  and the command queue live in `bevy_ecs`, outside this repository;
  they are modelled from the spec as noted on each definition.
-/

abbrev TypeId := Nat

abbrev Val := Nat

/-- Modelled from the spec: the host engine's authoritative world state,
"the host engine's single authoritative container for all resources and
entities".  `nonSend` is the table of non-`Send` resources keyed by type;
`resources` and `entities` stand for every other part of the world state. -/
structure World where
  nonSend : TypeId → Option Val
  resources : TypeId → Option Val
  entities : List Nat
  deriving Inhabited

/-- A fresh world: no resources of either kind, no entities. -/
def World.empty : World :=
  { nonSend := fun _ => none, resources := fun _ => none, entities := [] }

/-- Modelled from the spec: `World::init_non_send_resource` (bevy_ecs),
"registers R in the world using its context-derived default value if not
already present; idempotent per the host's own registration semantics".
The context-derived default (`FromWorld`) is `fromWorld` applied to the
current world. -/
def World.init_non_send_resource (w : World) (r : TypeId)
    (fromWorld : World → Val) : World :=
  if (w.nonSend r).isSome then w
  else { w with nonSend := fun i => if i = r then some (fromWorld w) else w.nonSend i }

/-- Modelled from the spec: `World::insert_non_send_resource` (bevy_ecs),
"installs the result as the resource, overwriting any prior value". -/
def World.insert_non_send_resource (w : World) (r : TypeId) (v : Val) : World :=
  { w with nonSend := fun i => if i = r then some v else w.nonSend i }

/-- Modelled from the spec: `World::remove_non_send_resource` (bevy_ecs),
"removes R from the world if present; a no-op if absent".  The removed
value is not surfaced by the library, so the model returns only the world. -/
def World.remove_non_send_resource (w : World) (r : TypeId) : World :=
  { w with nonSend := fun i => if i = r then none else w.nonSend i }

/-- A deferred operation (`impl Command`): a callable run later against the
world, threading the environment `σ` captured by its closure. -/
abbrev Command (σ : Type) := World × σ → World × σ

/-- src/lib.rs lines 42-46: `init_non_send_resource::<R>()` returns the
closure `|world| { world.init_non_send_resource::<R>(); }`.  The closure
captures nothing, so the environment passes through untouched. -/
def init_non_send_resource (r : TypeId) (fromWorld : World → Val) :
    Command σ :=
  fun ws => (World.init_non_send_resource ws.1 r fromWorld, ws.2)

/-- src/lib.rs lines 76-84: `insert_non_send_resource(func)` returns the
closure `move |world| { world.insert_non_send_resource((func)()); }`:
the factory is called exactly once, inside the closure body, and its
result is handed to the host-engine insert. -/
def insert_non_send_resource (r : TypeId) (func : σ → Val × σ) :
    Command σ :=
  fun ws =>
    let vs := func ws.2
    (World.insert_non_send_resource ws.1 r vs.1, vs.2)

/-- src/lib.rs lines 111-115: `remove_non_send_resource::<R>()` returns the
closure `|world| { world.remove_non_send_resource::<R>(); }`; the value
returned by the host-engine remove is discarded. -/
def remove_non_send_resource (r : TypeId) : Command σ :=
  fun ws => (World.remove_non_send_resource ws.1 r, ws.2)

/-- Modelled from the spec: the host's `Commands` object, "the host
engine's mechanism for buffering deferred operations for later, ordered
execution against the world" — a queue of deferred operations. -/
abbrev Commands (σ : Type) := List (Command σ)

/-- Modelled from the spec: `Commands::add` (bevy_ecs) enqueues a deferred
operation at the back of the queue. -/
def Commands.add (cmds : Commands σ) (c : Command σ) : Commands σ :=
  cmds ++ [c]

/-- Modelled from the spec: a command-queue session — the buffered queue
together with the state it will eventually be executed against. -/
structure Session (σ : Type) where
  queue : Commands σ
  state : World × σ

/-- Modelled from the spec: enqueueing buffers the operation; the world is
not touched. -/
def Session.enqueue (s : Session σ) (c : Command σ) : Session σ :=
  { s with queue := Commands.add s.queue c }

/-- Modelled from the spec: the host executes the buffered operations in
order against the world and drains the queue, so each handed-off operation
is consumed by its single execution. -/
def Session.flush (s : Session σ) : Session σ :=
  { queue := [], state := s.queue.foldl (fun ws c => c ws) s.state }

/-- Alias for the free function `init_non_send_resource`, usable inside the
`CommandsExt` namespace where the bare name would refer to the method. -/
def initFree : TypeId → (World → Val) → Command σ :=
  init_non_send_resource

/-- Alias for the free function `insert_non_send_resource`, usable inside
the `CommandsExt` namespace. -/
def insertFree : TypeId → (σ → Val × σ) → Command σ :=
  insert_non_send_resource

/-- Alias for the free function `remove_non_send_resource`, usable inside
the `CommandsExt` namespace. -/
def removeFree : TypeId → Command σ :=
  remove_non_send_resource

/-- src/lib.rs lines 199-201: the `CommandsExt` method
`init_non_send_resource` is `self.add(init_non_send_resource::<R>())`. -/
def CommandsExt.init_non_send_resource (self : Commands σ) (r : TypeId)
    (fromWorld : World → Val) : Commands σ :=
  Commands.add self (initFree r fromWorld)

/-- src/lib.rs lines 203-209: the `CommandsExt` method
`insert_non_send_resource` is `self.add(insert_non_send_resource(func))`. -/
def CommandsExt.insert_non_send_resource (self : Commands σ) (r : TypeId)
    (func : σ → Val × σ) : Commands σ :=
  Commands.add self (insertFree r func)

/-- src/lib.rs lines 211-213: the `CommandsExt` method
`remove_non_send_resource` is `self.add(remove_non_send_resource::<R>())`. -/
def CommandsExt.remove_non_send_resource (self : Commands σ) (r : TypeId) :
    Commands σ :=
  Commands.add self (removeFree r)

/-- A factory whose environment is an invocation counter: each call
increments the counter and returns `v`.  Used to observe how many times a
deferred operation invokes its factory. -/
def countingFactory (v : Val) : Nat → Val × Nat :=
  fun n => (v, n + 1)

/-- `w2` agrees with `w` on everything outside the non-`Send` resource
entry of type `r`: every other non-`Send` entry, all ordinary resources,
and all entities are the same. -/
def World.unchangedOutside (w w2 : World) (r : TypeId) : Prop :=
  (∀ i, i ≠ r → w2.nonSend i = w.nonSend i) ∧
  w2.resources = w.resources ∧
  w2.entities = w.entities

/-- C1: running the operation produced by `insert_non_send_resource F`
installs F's result as the non-`Send` resource of type R (for every prior
world, so any prior value is overwritten), the environment after the run
is the environment after exactly one invocation of F, and with a counting
factory the invocation counter rises by exactly one. -/
theorem C1_insert_installs_factory_result_exactly_once :
    (∀ (σ : Type) (r : TypeId) (func : σ → Val × σ) (w : World) (s : σ),
        ((insert_non_send_resource r func) (w, s)).1.nonSend r = some (func s).1 ∧
        ((insert_non_send_resource r func) (w, s)).2 = (func s).2) ∧
    (∀ (r : TypeId) (v : Val) (w : World) (n : Nat),
        ((insert_non_send_resource r (countingFactory v)) (w, n)).1.nonSend r = some v ∧
        ((insert_non_send_resource r (countingFactory v)) (w, n)).2 = n + 1) := by
  constructor
  · intro σ r func w s
    constructor
    · simp [insert_non_send_resource, World.insert_non_send_resource]
    · rfl
  · intro r v w n
    exact ⟨by simp [insert_non_send_resource, World.insert_non_send_resource,
      countingFactory], rfl⟩

/-- C2: running the operation produced by `init_non_send_resource` installs
the context-derived default when R is absent (in particular on a fresh
world), and leaves the world and environment completely unchanged when R is
already present. -/
theorem C2_init_registers_default_and_is_idempotent :
    ∀ (σ : Type) (r : TypeId) (fromWorld : World → Val) (w : World) (s : σ),
      (w.nonSend r = none →
        ((init_non_send_resource r fromWorld) (w, s)).1.nonSend r
          = some (fromWorld w)) ∧
      ((w.nonSend r).isSome →
        (init_non_send_resource r fromWorld) (w, s) = (w, s)) := by
  intro σ r fromWorld w s
  constructor
  · intro h
    simp [init_non_send_resource, World.init_non_send_resource, h]
  · intro h
    simp [init_non_send_resource, World.init_non_send_resource, h]

/-- Witness for C2: on the fresh world the default 7 is installed at type
id 0; on a world already holding 3 at type id 0, the operation changes
nothing. -/
theorem C2_witness :
    ((init_non_send_resource 0 (fun _ => 7) (World.empty, ())).1.nonSend 0
        = some 7) ∧
    (init_non_send_resource 0 (fun _ => 7)
        (World.insert_non_send_resource World.empty 0 3, ())
      = (World.insert_non_send_resource World.empty 0 3, ())) :=
  ⟨(C2_init_registers_default_and_is_idempotent Unit 0 (fun _ => 7)
      World.empty ()).1 rfl,
   (C2_init_registers_default_and_is_idempotent Unit 0 (fun _ => 7)
      (World.insert_non_send_resource World.empty 0 3) ()).2 rfl⟩

/-- C3: running the operation produced by `remove_non_send_resource`
removes R (a subsequent query returns absent), when R is absent the world
and environment are left completely unchanged, and no value is surfaced:
the operation returns only the updated world-and-environment pair. -/
theorem C3_remove_removes_and_is_noop_when_absent :
    ∀ (σ : Type) (r : TypeId) (w : World) (s : σ),
      ((remove_non_send_resource r) (w, s)).1.nonSend r = none ∧
      (w.nonSend r = none → (remove_non_send_resource r) (w, s) = (w, s)) := by
  intro σ r w s
  constructor
  · simp [remove_non_send_resource, World.remove_non_send_resource]
  · intro h
    have hf : (fun i => if i = r then none else w.nonSend i) = w.nonSend := by
      funext i
      by_cases hi : i = r
      · simp [hi, h]
      · simp [hi]
    simp [remove_non_send_resource, World.remove_non_send_resource, hf]

/-- Witness for C3: removing type id 0 from the fresh world (where it is
absent) yields absent and leaves the pair unchanged. -/
theorem C3_witness :
    ((remove_non_send_resource 0 (World.empty, ())).1.nonSend 0 = none) ∧
    (remove_non_send_resource 0 (World.empty, ()) = (World.empty, ())) :=
  ⟨(C3_remove_removes_and_is_noop_when_absent Unit 0 World.empty ()).1,
   (C3_remove_removes_and_is_noop_when_absent Unit 0 World.empty ()).2 rfl⟩

/-- C4: for each of the three operations and every queue and state,
enqueueing through the fluent `CommandsExt` method and executing the queue
has exactly the same effect as enqueueing the free-function operation and
executing: the fluent methods add no behavior. -/
theorem C4_fluent_methods_match_free_functions :
    ∀ (σ : Type) (cmds : Commands σ) (r : TypeId) (fromWorld : World → Val)
      (func : σ → Val × σ) (ws : World × σ),
      Session.flush (Session.mk (CommandsExt.init_non_send_resource cmds r fromWorld) ws)
        = Session.flush (Session.mk (Commands.add cmds (init_non_send_resource r fromWorld)) ws) ∧
      Session.flush (Session.mk (CommandsExt.insert_non_send_resource cmds r func) ws)
        = Session.flush (Session.mk (Commands.add cmds (insert_non_send_resource r func)) ws) ∧
      Session.flush (Session.mk (CommandsExt.remove_non_send_resource cmds r) ws)
        = Session.flush (Session.mk (Commands.add cmds (remove_non_send_resource r)) ws) := by
  intro σ cmds r fromWorld func ws
  exact ⟨rfl, rfl, rfl⟩

/-- C5: the Counter scenario at type id 0, with context-derived default 0
and environment the factory-invocation counter (starting at 0): after
`init_non_send_resource` on the fresh world the query yields 0; after
`insert_non_send_resource` with a factory producing 5 it yields 5; after
`remove_non_send_resource` it is absent. -/
theorem C5_counter_scenario :
    ((init_non_send_resource 0 (fun _ => 0)) (World.empty, 0)).1.nonSend 0
      = some 0 ∧
    ((insert_non_send_resource 0 (countingFactory 5))
        ((init_non_send_resource 0 (fun _ => 0)) (World.empty, 0))).1.nonSend 0
      = some 5 ∧
    ((remove_non_send_resource 0)
        ((insert_non_send_resource 0 (countingFactory 5))
          ((init_non_send_resource 0 (fun _ => 0)) (World.empty, 0)))).1.nonSend 0
      = none :=
  ⟨rfl, rfl, rfl⟩

/-- C6: constructing `insert_non_send_resource F` and enqueueing it leaves
the world and the factory-invocation counter untouched, for any prior
queue; the counter rises (by exactly one) only when the queue holding the
operation is actually flushed. -/
theorem C6_factory_deferred_until_execution :
    ∀ (cmds : Commands Nat) (r : TypeId) (v : Val) (w : World) (n : Nat),
      (Session.enqueue (Session.mk cmds (w, n))
          (insert_non_send_resource r (countingFactory v))).state = (w, n) ∧
      (Session.flush (Session.enqueue (Session.mk [] (w, n))
          (insert_non_send_resource r (countingFactory v)))).state.2 = n + 1 := by
  intro cmds r v w n
  exact ⟨rfl, rfl⟩

/-- C7: each of the three operations changes at most the non-`Send`
resource entry of type `r`: every other non-`Send` entry, all ordinary
resources and all entities of the resulting world agree with the prior
world. -/
theorem C7_operations_touch_only_their_entry :
    ∀ (σ : Type) (r : TypeId) (fromWorld : World → Val) (func : σ → Val × σ)
      (w : World) (s : σ),
      World.unchangedOutside w ((init_non_send_resource r fromWorld) (w, s)).1 r ∧
      World.unchangedOutside w ((insert_non_send_resource r func) (w, s)).1 r ∧
      World.unchangedOutside w ((remove_non_send_resource r) (w, s)).1 r := by
  intro σ r fromWorld func w s
  refine ⟨⟨fun i hi => ?_, ?_, ?_⟩, ⟨fun i hi => ?_, rfl, rfl⟩,
    ⟨fun i hi => ?_, rfl, rfl⟩⟩
  · by_cases h : (w.nonSend r).isSome
    · simp [init_non_send_resource, World.init_non_send_resource, h]
    · simp [init_non_send_resource, World.init_non_send_resource, h, hi]
  · by_cases h : (w.nonSend r).isSome
    · simp [init_non_send_resource, World.init_non_send_resource, h]
    · simp [init_non_send_resource, World.init_non_send_resource, h]
  · by_cases h : (w.nonSend r).isSome
    · simp [init_non_send_resource, World.init_non_send_resource, h]
    · simp [init_non_send_resource, World.init_non_send_resource, h]
  · simp [insert_non_send_resource, World.insert_non_send_resource, hi]
  · simp [remove_non_send_resource, World.remove_non_send_resource, hi]

/-- C8: a handed-off operation runs at most once.  Flushing a queue holding
`insert_non_send_resource` invokes the factory exactly once and empties the
queue, and flushing again is inert: the state (world and counter) is
exactly the state after the single execution. -/
theorem C8_commands_run_at_most_once :
    ∀ (r : TypeId) (v : Val) (w : World) (n : Nat),
      (Session.flush (Session.enqueue (Session.mk [] (w, n))
          (insert_non_send_resource r (countingFactory v)))).state.2 = n + 1 ∧
      (Session.flush (Session.flush (Session.enqueue (Session.mk [] (w, n))
          (insert_non_send_resource r (countingFactory v))))).state.2 = n + 1 ∧
      ∀ (σ : Type) (sess : Session σ),
        (Session.flush sess).queue = [] ∧
        Session.flush (Session.flush sess) = Session.flush sess := by
  intro r v w n
  exact ⟨rfl, rfl, fun σ sess => ⟨rfl, rfl⟩⟩

/-- Witness for C7: at type id 0 on the fresh world, each of the three
operations leaves everything outside entry 0 unchanged. -/
theorem C7_witness :
    World.unchangedOutside World.empty
      ((init_non_send_resource 0 (fun _ => 0)) (World.empty, ())).1 0 ∧
    World.unchangedOutside World.empty
      ((insert_non_send_resource 0 (fun s => (5, s))) (World.empty, ())).1 0 ∧
    World.unchangedOutside World.empty
      ((remove_non_send_resource 0) (World.empty, ())).1 0 :=
  C7_operations_touch_only_their_entry Unit 0 (fun _ => 0) (fun s => (5, s))
    World.empty ()
